import Mathlib

/-!
Verification of the reading-acquisition, validation and batched-delivery
pipeline of `ens160AirQualitySensor.py` (class `SensorManager`, class
`SensorHealth`, class `EnvironmentAnalyzer`).

The embedding is shallow: Python dictionaries whose values may be of mixed
type are modelled by association lists over an inductive `PyVal`; Python
exceptions are modelled with `Except PyErr`; Python floats are modelled by
`ℚ` (no claim under verification depends on rounding); `time.time()` is
passed in as an explicit `now` parameter.
-/

/-- Python exception classes that can escape the expressions we model. -/
inductive PyErr where
  | keyError
  | typeError
  deriving DecidableEq, Repr

/-- Python runtime values appearing in the sensor-data dictionaries. -/
inductive PyVal where
  | intV (z : ℤ)
  | floatV (q : ℚ)
  | strV (s : String)
  | noneV
  deriving DecidableEq, Repr

/-- A Python dict with string keys, as built by dict literals in the source
(keys are unique, insertion order kept). -/
abbrev PyDict := List (String × PyVal)

/-- Dictionary subscript `d[k]`: the value stored at the key, `KeyError`
when the key is absent. -/
def pyLookup (d : PyDict) (k : String) : Except PyErr PyVal :=
  match d.find? (fun p => p.1 = k) with
  | some p => Except.ok p.2
  | none => Except.error PyErr.keyError

/-- Numeric view of a Python value: ints and floats compare numerically,
anything else has no numeric view. -/
def PyVal.toNum : PyVal → Option ℚ
  | PyVal.intV z => some (z : ℚ)
  | PyVal.floatV q => some q
  | PyVal.strV _ => none
  | PyVal.noneV => none

/-- Python `a <= b`: numeric on numbers, lexicographic between two strings,
`TypeError` on any other combination. -/
def pyLe (a b : PyVal) : Except PyErr Bool :=
  match a.toNum, b.toNum with
  | some x, some y => Except.ok (decide (x ≤ y))
  | _, _ =>
    match a, b with
    | PyVal.strV s, PyVal.strV t => Except.ok (decide (s ≤ t))
    | _, _ => Except.error PyErr.typeError

/-- Python `a == b` between the values we model: never raises; values of
unrelated types simply compare unequal. -/
def pyEqv : PyVal → PyVal → Bool
  | PyVal.intV x, PyVal.intV y => decide (x = y)
  | PyVal.intV x, PyVal.floatV q => decide ((x : ℚ) = q)
  | PyVal.floatV q, PyVal.intV x => decide (q = (x : ℚ))
  | PyVal.floatV x, PyVal.floatV y => decide (x = y)
  | PyVal.strV s, PyVal.strV t => decide (s = t)
  | PyVal.noneV, PyVal.noneV => true
  | _, _ => false

/-- Python `a != b`. -/
def pyNe (a b : PyVal) : Bool := !pyEqv a b

/-- The `reading` dictionary assembled by `SensorManager.read_sensors`
(source line 459), as a typed record.  Field types follow the drivers:
temperature, pressure, humidity and the timestamp are floats, AQI, TVOC
and eCO2 are ints, the ratings and the operational status are strings. -/
structure Reading where
  tempC : ℚ
  pres_hPa : ℚ
  humRH : ℚ
  aqi : ℤ
  aqi_rating : String
  tvoc : ℤ
  eco2 : ℤ
  eco2_rating : String
  sensor_status : String
  timestamp : ℚ
  deriving DecidableEq, Repr

/-- The dict literal of source line 459, in source order. -/
def Reading.toDict (r : Reading) : PyDict :=
  [("tempC", PyVal.floatV r.tempC),
   ("pres_hPa", PyVal.floatV r.pres_hPa),
   ("humRH", PyVal.floatV r.humRH),
   ("aqi", PyVal.intV r.aqi),
   ("aqi_rating", PyVal.strV r.aqi_rating),
   ("tvoc", PyVal.intV r.tvoc),
   ("eco2", PyVal.intV r.eco2),
   ("eco2_rating", PyVal.strV r.eco2_rating),
   ("sensor_status", PyVal.strV r.sensor_status),
   ("timestamp", PyVal.floatV r.timestamp)]

/-- Python chained comparison `lo <= d[k] <= hi` as it occurs in
`validate_data_point`: the subscript is evaluated first, then the left
comparison; the right comparison runs only when the left one is true. -/
def rangeChk (d : PyDict) (k : String) (lo hi : ℤ) : Except PyErr Bool :=
  match pyLookup d k with
  | Except.error e => Except.error e
  | Except.ok v =>
    match pyLe (PyVal.intV lo) v with
    | Except.error e => Except.error e
    | Except.ok false => Except.ok false
    | Except.ok true => pyLe v (PyVal.intV hi)

/-- Sequence of `if not (...): return False` range checks: the first check
that is false (or raises) decides the outcome. -/
def seqChecks : List (Except PyErr Bool) → Except PyErr Bool
  | [] => Except.ok true
  | c :: cs =>
    match c with
    | Except.error e => Except.error e
    | Except.ok false => Except.ok false
    | Except.ok true => seqChecks cs

/-- Body of `SensorManager.validate_data_point` (source lines 305-335), the
part inside the `try`.  Configuration constants are inlined from `CONFIG`:
TEMP_RANGE (-10, 50), TVOC_RANGE (0, 65000), ECO2_RANGE (400, 65000),
AQI 1..len(AQI_RATINGS)=5, humidity 0..100, PRESSURE_RANGE (900, 1100). -/
def vdp_impl (d : PyDict) : Except PyErr Bool :=
  match pyLookup d "sensor_status" with
  | Except.error e => Except.error e
  | Except.ok s =>
    if pyNe s (PyVal.strV "operating ok") then Except.ok false
    else
      seqChecks
        [rangeChk d "tempC" (-10) 50,
         rangeChk d "tvoc" 0 65000,
         rangeChk d "eco2" 400 65000,
         rangeChk d "aqi" 1 5,
         rangeChk d "humRH" 0 100,
         rangeChk d "pres_hPa" 900 1100]

/-- `SensorManager.validate_data_point`: the `except (KeyError, TypeError):
return False` clause catches every error the body can raise. -/
def validate_data_point (d : PyDict) : Bool :=
  match vdp_impl d with
  | Except.ok b => b
  | Except.error _ => false

/-! ## Delivery cache and batcher (`SensorManager` state, `flush_cache`,
`write_to_influx`) -/

/-- Configuration constant `CONFIG['CACHE']['MAX_SIZE']`. -/
def CACHE_MAX_SIZE : ℕ := 1000

/-- Configuration constant `CONFIG['INFLUXDB']['BATCH_SIZE']`. -/
def INFLUX_BATCH_SIZE : ℕ := 60

/-- Configuration constant `CONFIG['INFLUXDB']['SEND_INTERVAL_SEC']`. -/
def INFLUX_SEND_INTERVAL : ℚ := 60

/-- Append to a `collections.deque(maxlen := cap)`: the new element goes on
the right; when the deque is full the leftmost (oldest) element is
discarded. -/
def dequeAppend {α : Type} (cap : ℕ) (q : List α) (d : α) : List α :=
  let q' := q ++ [d]
  if cap < q'.length then q'.drop (q'.length - cap) else q'

/-- The part of `SensorManager` state that the delivery pipeline mutates:
`data_cache` (a deque of reading dicts) and `last_influx_send`. -/
structure MgrState where
  data_cache : List PyDict
  last_influx_send : ℚ
  deriving DecidableEq, Repr

/-- One InfluxDB point as built in `flush_cache` (source lines 359-372):
the nine reading fields (the two tags are constants and carry no
information). -/
structure Point where
  temperature : PyVal
  humidity : PyVal
  pressure : PyVal
  aqi : PyVal
  tvoc : PyVal
  eco2 : PyVal
  aqi_rating : PyVal
  eco2_rating : PyVal
  sensor_status : PyVal
  deriving DecidableEq, Repr

/-- Build one point from one cached dict; any missing key raises
`KeyError` out of the loop (source lines 363-371). -/
def toPoint (d : PyDict) : Except PyErr Point :=
  match pyLookup d "tempC", pyLookup d "humRH", pyLookup d "pres_hPa",
        pyLookup d "aqi", pyLookup d "tvoc", pyLookup d "eco2",
        pyLookup d "aqi_rating", pyLookup d "eco2_rating",
        pyLookup d "sensor_status" with
  | Except.ok t, Except.ok h, Except.ok p, Except.ok a, Except.ok tv,
    Except.ok e, Except.ok ar, Except.ok er, Except.ok st =>
      Except.ok ⟨t, h, p, a, tv, e, ar, er, st⟩
  | Except.error e, _, _, _, _, _, _, _, _ => Except.error e
  | _, Except.error e, _, _, _, _, _, _, _ => Except.error e
  | _, _, Except.error e, _, _, _, _, _, _ => Except.error e
  | _, _, _, Except.error e, _, _, _, _, _ => Except.error e
  | _, _, _, _, Except.error e, _, _, _, _ => Except.error e
  | _, _, _, _, _, Except.error e, _, _, _ => Except.error e
  | _, _, _, _, _, _, Except.error e, _, _ => Except.error e
  | _, _, _, _, _, _, _, Except.error e, _ => Except.error e
  | _, _, _, _, _, _, _, _, Except.error e => Except.error e

/-- The `for data in self.data_cache` loop of `flush_cache`: first failure
escapes, otherwise the list of points in cache order. -/
def points_build : List PyDict → Except PyErr (List Point)
  | [] => Except.ok []
  | d :: ds =>
    match toPoint d with
    | Except.error e => Except.error e
    | Except.ok p =>
      match points_build ds with
      | Except.error e => Except.error e
      | Except.ok ps => Except.ok (p :: ps)

/-- `SensorManager.flush_cache` (source lines 351-386).  The external
`write_api.write` call is modelled by `sink`, a function from the batch of
points to success (`true`) or a raised exception (`false`).  On an empty
cache the method returns at once; on any exception inside the `try`
(point-building `KeyError` or a sink failure) nothing is mutated; only
after a successful write are the cache cleared and `last_influx_send` set
to the current time. -/
def flush_cache (sink : List Point → Bool) (now : ℚ) (st : MgrState) :
    MgrState :=
  if st.data_cache = [] then st
  else
    match points_build st.data_cache with
    | Except.error _ => st
    | Except.ok pts => if sink pts then ⟨[], now⟩ else st

/-- The flush condition of `SensorManager.write_to_influx` (source lines
344-346), checked after the reading has been appended: time since the last
successful send at least `SEND_INTERVAL_SEC` and cache length (after the
append) at least `BATCH_SIZE`. -/
def write_to_influx_flushes (now : ℚ) (st : MgrState) (d : PyDict) : Bool :=
  validate_data_point d &&
    decide (INFLUX_SEND_INTERVAL ≤ now - st.last_influx_send) &&
    decide (INFLUX_BATCH_SIZE ≤ (dequeAppend CACHE_MAX_SIZE st.data_cache d).length)

/-- `SensorManager.write_to_influx` (source lines 339-349): validate, on
success append to the deque and, when the flush condition holds, call
`flush_cache`; an invalid reading is dropped with no state change. -/
def write_to_influx (sink : List Point → Bool) (now : ℚ) (st : MgrState)
    (d : PyDict) : MgrState :=
  if validate_data_point d then
    let q := dequeAppend CACHE_MAX_SIZE st.data_cache d
    let st' : MgrState := ⟨q, st.last_influx_send⟩
    if INFLUX_SEND_INTERVAL ≤ now - st.last_influx_send ∧
        INFLUX_BATCH_SIZE ≤ q.length then
      flush_cache sink now st'
    else st'
  else st

/-! ## Health tracker (`SensorHealth`) and reading assembler
(`SensorManager.read_sensors`) -/

/-- The three sensor names used as dictionary keys in `SensorHealth`. -/
inductive SensorName where
  | temp_sensor
  | air_quality
  | atmospheric
  deriving DecidableEq, Repr

/-- The anonymous eCO2 object: the drivers (and the default stand-in of
source lines 423-424) expose `.value` and `.rating`. -/
structure Eco2Obj where
  value : ℤ
  rating : String
  deriving DecidableEq, Repr

/-- The `error_counts` dictionary of `SensorHealth`. -/
structure ErrorCounts where
  temp_sensor : ℕ
  air_quality : ℕ
  atmospheric : ℕ
  deriving DecidableEq, Repr

/-- The `last_readings` dictionary of `SensorHealth`: every key is present
from construction on, initially holding `None`.  The air-quality entry is
the tuple `(aqi, tvoc, eco2)` of source line 477, where the aqi object is
represented by its `.value` (its `.rating` attribute is never read). -/
structure LastReadings where
  temp_sensor : Option ℚ
  air_quality : Option (ℤ × ℤ × Eco2Obj)
  atmospheric : Option (ℚ × ℚ × ℚ)
  deriving DecidableEq, Repr

/-- The `last_reading_time` dictionary of `SensorHealth`. -/
structure ReadingTimes where
  temp_sensor : ℚ
  air_quality : ℚ
  atmospheric : ℚ
  deriving DecidableEq, Repr

/-- Class `SensorHealth` (source lines 108-124). -/
structure SensorHealth where
  error_counts : ErrorCounts
  last_readings : LastReadings
  last_reading_time : ReadingTimes
  deriving DecidableEq, Repr

/-- `SensorHealth.__init__`: zero error counts, `None` last readings, zero
timestamps. -/
def SensorHealth.init : SensorHealth :=
  ⟨⟨0, 0, 0⟩, ⟨none, none, none⟩, ⟨0, 0, 0⟩⟩

/-- Read one error counter. -/
def ErrorCounts.get (c : ErrorCounts) : SensorName → ℕ
  | SensorName.temp_sensor => c.temp_sensor
  | SensorName.air_quality => c.air_quality
  | SensorName.atmospheric => c.atmospheric

/-- Write one error counter. -/
def ErrorCounts.set (c : ErrorCounts) : SensorName → ℕ → ErrorCounts
  | SensorName.temp_sensor, n => { c with temp_sensor := n }
  | SensorName.air_quality, n => { c with air_quality := n }
  | SensorName.atmospheric, n => { c with atmospheric := n }

/-- Write one last-reading timestamp. -/
def ReadingTimes.set (t : ReadingTimes) : SensorName → ℚ → ReadingTimes
  | SensorName.temp_sensor, v => { t with temp_sensor := v }
  | SensorName.air_quality, v => { t with air_quality := v }
  | SensorName.atmospheric, v => { t with atmospheric := v }

/-- `SensorHealth.update_sensor_time` (source lines 126-127); the
`time.time()` call is the explicit `now`. -/
def SensorHealth.update_sensor_time (h : SensorHealth) (s : SensorName)
    (now : ℚ) : SensorHealth :=
  { h with last_reading_time := h.last_reading_time.set s now }

/-- `SensorHealth.increment_error` (source lines 129-131). -/
def SensorHealth.increment_error (h : SensorHealth) (s : SensorName) :
    SensorHealth :=
  { h with error_counts := h.error_counts.set s (h.error_counts.get s + 1) }

/-- `SensorHealth.reset_error` (source lines 133-136): sets the counter to
zero only when it is positive (observably the same as always writing 0). -/
def SensorHealth.reset_error (h : SensorHealth) (s : SensorName) :
    SensorHealth :=
  if 0 < h.error_counts.get s then
    { h with error_counts := h.error_counts.set s 0 }
  else h

/-- `SensorHealth.validate_reading` (source lines 145-152), against
TEMP_RANGE (-10, 50), HUMID_RANGE (0, 100), PRESSURE_RANGE (900, 1100);
unknown kinds validate. -/
def SensorHealth.validate_reading (t : String) (v : ℚ) : Bool :=
  if t = "temperature" then decide (-10 ≤ v) && decide (v ≤ 50)
  else if t = "humidity" then decide (0 ≤ v) && decide (v ≤ 100)
  else if t = "pressure" then decide (900 ≤ v) && decide (v ≤ 1100)
  else true

/-- `SensorHealth.validate_sensor_reading` (source lines 154-161), against
TVOC_RANGE (0, 65000), ECO2_RANGE (400, 65000), and `isinstance(value, int)
and 1 <= value <= 5` for the AQI (the `isinstance` test holds here by
typing: the driver and defaults supply ints); unknown kinds validate. -/
def SensorHealth.validate_sensor_reading (t : String) (v : ℤ) : Bool :=
  if t = "tvoc" then decide (0 ≤ v) && decide (v ≤ 65000)
  else if t = "eco2" then decide (400 ≤ v) && decide (v ≤ 65000)
  else if t = "aqi" then decide (1 ≤ v) && decide (v ≤ 5)
  else true

/-- The map `CONFIG['ENS160']['AQI_RATINGS']`. -/
def aqi_ratings (i : ℤ) : Option String :=
  if i = 1 then some "Excellent"
  else if i = 2 then some "Good"
  else if i = 3 then some "Moderate"
  else if i = 4 then some "Poor"
  else if i = 5 then some "Unhealthy"
  else none

/-- `CONFIG['ENS160']['AQI_RATINGS'].get(aqi.value, 'Unknown')` of source
line 464. -/
def aqi_rating_get (i : ℤ) : String := (aqi_ratings i).getD "Unknown"

/-- Outcomes of the sensor-port calls made inside one `read_sensors`
invocation.  `Except.error ()` models the call raising; `aq_set_ok` models
the two attribute writes of source lines 429-430 together, `aq_operation`
the `operation` property read, and `aq_aqi` / `aq_tvoc` / `aq_eco2` the
three value property reads (the aqi object is carried by its `.value`). -/
structure Ports where
  atm : Except Unit (ℚ × ℚ × ℚ)
  tmp : Except Unit ℚ
  aq_set_ok : Bool
  aq_operation : Except Unit String
  aq_aqi : Except Unit ℤ
  aq_tvoc : Except Unit ℤ
  aq_eco2 : Except Unit Eco2Obj
  deriving Repr

/-- Result of one `read_sensors` invocation: the mutated health state and
history persist even when the method raises (`result = Except.error _`),
exactly as the mutations to `self.health` survive a raised exception in
Python. -/
structure RSOut where
  health : SensorHealth
  history : List Reading
  result : Except PyErr Reading
  deriving Repr

/-- The per-sensor blocks of `read_sensors` (source lines 389-470), up to
but not including the history/last-known-good update.  Returns the health
state after all mutations and, on success, the assembled reading together
with the values `(tempC, presPa, humRH)`, `tempC_tempSensor` and
`(aqi, tvoc, eco2)` that lines 475-477 would store.

Source subtleties carried over faithfully:
* atmospheric failure (line 404): `self.health.last_readings.get(
  'atmospheric', (20, 101325, 50))` returns the stored value because the
  key is always present — initially `None`, and tuple-unpacking `None`
  raises `TypeError` out of the method; the literal default tuple is
  unreachable;
* the air-quality `sensor_status` local starts as the ERROR constant
  (line 425) and is overwritten by the freshly read status (line 433)
  before the status gate raises, so a reading assembled after a failed
  value read can still carry status `"operating ok"`;
* on an air-quality exception the three locals keep whatever had been
  assigned before the failure point unless a last-known-good tuple
  exists, in which case all three are replaced (lines 456-457). -/
def read_sensors_core (p : Ports) (h0 : SensorHealth) (now : ℚ) :
    SensorHealth ×
      Except PyErr (Reading × (ℚ × ℚ × ℚ) × ℚ × (ℤ × ℤ × Eco2Obj)) :=
  let atmStep : SensorHealth × Except PyErr (ℚ × ℚ × ℚ) :=
    match p.atm with
    | Except.ok (t, pr, hu) =>
      let h1 := h0.update_sensor_time SensorName.atmospheric now
      let h2 :=
        if !(SensorHealth.validate_reading "temperature" t &&
             SensorHealth.validate_reading "humidity" hu &&
             SensorHealth.validate_reading "pressure" (pr / 100)) then
          h1.increment_error SensorName.atmospheric
        else h1.reset_error SensorName.atmospheric
      (h2, Except.ok (t, pr, hu))
    | Except.error _ =>
      let h1 := h0.increment_error SensorName.atmospheric
      match h1.last_readings.atmospheric with
      | none => (h1, Except.error PyErr.typeError)
      | some v => (h1, Except.ok v)
  match atmStep with
  | (h1, Except.error e) => (h1, Except.error e)
  | (h1, Except.ok (tempC, presPa, humRH)) =>
    let tmpStep : SensorHealth × ℚ :=
      match p.tmp with
      | Except.ok t =>
        let hA := h1.update_sensor_time SensorName.temp_sensor now
        (if !(SensorHealth.validate_reading "temperature" t) then
           hA.increment_error SensorName.temp_sensor
         else hA.reset_error SensorName.temp_sensor, t)
      | Except.error _ => (h1.increment_error SensorName.temp_sensor, tempC)
    match tmpStep with
    | (h2, tempC_tempSensor) =>
      let exceptAir : SensorHealth → ℤ → ℤ → Eco2Obj → String →
          SensorHealth × ℤ × ℤ × Eco2Obj × String := fun h a tv e st =>
        let h' := h.increment_error SensorName.air_quality
        match h'.last_readings.air_quality with
        | some (a', tv', e') => (h', a', tv', e', st)
        | none => (h', a, tv, e, st)
      let aqStep : SensorHealth × ℤ × ℤ × Eco2Obj × String :=
        if !p.aq_set_ok then exceptAir h2 1 0 ⟨400, "Normal"⟩ "error"
        else
          match p.aq_operation with
          | Except.error _ => exceptAir h2 1 0 ⟨400, "Normal"⟩ "error"
          | Except.ok st =>
            if st ≠ "operating ok" then exceptAir h2 1 0 ⟨400, "Normal"⟩ st
            else
              match p.aq_aqi with
              | Except.error _ => exceptAir h2 1 0 ⟨400, "Normal"⟩ st
              | Except.ok a =>
                match p.aq_tvoc with
                | Except.error _ => exceptAir h2 a 0 ⟨400, "Normal"⟩ st
                | Except.ok tv =>
                  match p.aq_eco2 with
                  | Except.error _ => exceptAir h2 a tv ⟨400, "Normal"⟩ st
                  | Except.ok e =>
                    let hB :=
                      if !(SensorHealth.validate_sensor_reading "tvoc" tv &&
                           SensorHealth.validate_sensor_reading "eco2" e.value &&
                           SensorHealth.validate_sensor_reading "aqi" a) then
                        h2.increment_error SensorName.air_quality
                      else h2.reset_error SensorName.air_quality
                    (hB.update_sensor_time SensorName.air_quality now, a, tv, e, st)
      match aqStep with
      | (h3, aqi, tvoc, eco2, sensor_status) =>
        let reading : Reading :=
          ⟨tempC_tempSensor, presPa / 100, humRH, aqi, aqi_rating_get aqi,
           tvoc, eco2.value, eco2.rating, sensor_status, now⟩
        (h3, Except.ok (reading, (tempC, presPa, humRH), tempC_tempSensor,
                        (aqi, tvoc, eco2)))

/-- `SensorManager.read_sensors` (source lines 388-479): the sensor blocks
(`read_sensors_core`) followed by the history / last-known-good update of
lines 472-477, which runs only when the assembled reading's operational
status is `"operating ok"`; `reading_history` is a deque with maxlen 128
(source line 236). -/
def read_sensors (p : Ports) (h0 : SensorHealth) (hist : List Reading)
    (now : ℚ) : RSOut :=
  match read_sensors_core p h0 now with
  | (h, Except.error e) => ⟨h, hist, Except.error e⟩
  | (h, Except.ok (r, atmV, tV, airV)) =>
    if r.sensor_status = "operating ok" then
      ⟨{ h with last_readings := ⟨some tV, some airV, some atmV⟩ },
       dequeAppend 128 hist r, Except.ok r⟩
    else ⟨h, hist, Except.ok r⟩

/-! ## Environment analyzer (`EnvironmentAnalyzer.get_environment_score`) -/

/-- The `recommendations` list of `get_environment_score` (source lines
168-208) in the order the `append` calls run: eCO2 tiers, then TVOC tiers,
then humidity, then temperature, then the AQI check. -/
def envRecs (r : Reading) : List String :=
  (if 2000 < r.eco2 then ["Ventilate now!"]
   else if 1200 < r.eco2 then ["Open windows"]
   else if 800 < r.eco2 then ["Consider fresh air"]
   else []) ++
  (if 10000 < r.tvoc then ["Air purify now!"]
   else if 2000 < r.tvoc then ["Ventilate space"]
   else if 500 < r.tvoc then ["Check VOC sources"]
   else []) ++
  (if r.humRH < 30 then ["Too dry: humidify"]
   else if r.humRH < 40 then ["Slightly dry"]
   else if 70 < r.humRH then ["Very humid: dehumidify"]
   else if 60 < r.humRH then ["Getting humid"]
   else []) ++
  (if 26 < r.tempC then ["Space too warm"]
   else if r.tempC < 17 then ["Space too cool"]
   else []) ++
  (if 4 ≤ r.aqi then ["Poor air: purify!"] else [])

/-- `EnvironmentAnalyzer.get_environment_score` (source lines 164-210).
The final `list(set(recommendations))[:2]` of line 210 converts the list
to a CPython `set` and back: the resulting order is the set's iteration
order, which depends on the (per-process randomized) string hashes, not on
insertion order.  That order is modelled by the parameter `setOrder`,
constrained in the theorems to produce a permutation of the deduplicated
recommendations. -/
def get_environment_score (setOrder : List String → List String)
    (r : Reading) : String × List String :=
  (r.aqi_rating, (setOrder (envRecs r)).take 2)

/-! ## Helper lemmas -/

/-- Incrementing an error counter leaves `last_readings` unchanged. -/
theorem increment_error_lkg (h : SensorHealth) (s : SensorName) :
    (h.increment_error s).last_readings = h.last_readings := rfl

/-- Resetting an error counter leaves `last_readings` unchanged. -/
theorem reset_error_lkg (h : SensorHealth) (s : SensorName) :
    (h.reset_error s).last_readings = h.last_readings := by
  unfold SensorHealth.reset_error; split <;> rfl

/-- Updating a read timestamp leaves `last_readings` unchanged. -/
theorem update_time_lkg (h : SensorHealth) (s : SensorName) (now : ℚ) :
    (h.update_sensor_time s now).last_readings = h.last_readings := rfl

/-- Incrementing an error counter leaves every timestamp unchanged
(`increment_error` touches only `error_counts`). -/
theorem increment_error_times (h : SensorHealth) (s : SensorName) :
    (h.increment_error s).last_reading_time = h.last_reading_time := rfl

/-- Resetting an error counter leaves every timestamp unchanged. -/
theorem reset_error_times (h : SensorHealth) (s : SensorName) :
    (h.reset_error s).last_reading_time = h.last_reading_time := by
  unfold SensorHealth.reset_error; split <;> rfl

/-- Updating the atmospheric timestamp sets it to `now`. -/
theorem ut_atm_atm (h : SensorHealth) (now : ℚ) :
    (h.update_sensor_time SensorName.atmospheric now).last_reading_time.atmospheric
      = now := rfl

/-- Updating the temperature timestamp leaves the atmospheric one unchanged. -/
theorem ut_tmp_atm (h : SensorHealth) (now : ℚ) :
    (h.update_sensor_time SensorName.temp_sensor now).last_reading_time.atmospheric
      = h.last_reading_time.atmospheric := rfl

/-- Updating the air-quality timestamp leaves the atmospheric one unchanged. -/
theorem ut_air_atm (h : SensorHealth) (now : ℚ) :
    (h.update_sensor_time SensorName.air_quality now).last_reading_time.atmospheric
      = h.last_reading_time.atmospheric := rfl

/-- Updating the atmospheric timestamp leaves the temperature one unchanged. -/
theorem ut_atm_tmp (h : SensorHealth) (now : ℚ) :
    (h.update_sensor_time SensorName.atmospheric now).last_reading_time.temp_sensor
      = h.last_reading_time.temp_sensor := rfl

/-- Updating the temperature timestamp sets it to `now`. -/
theorem ut_tmp_tmp (h : SensorHealth) (now : ℚ) :
    (h.update_sensor_time SensorName.temp_sensor now).last_reading_time.temp_sensor
      = now := rfl

/-- Updating the air-quality timestamp leaves the temperature one unchanged. -/
theorem ut_air_tmp (h : SensorHealth) (now : ℚ) :
    (h.update_sensor_time SensorName.air_quality now).last_reading_time.temp_sensor
      = h.last_reading_time.temp_sensor := rfl

/-- Updating the atmospheric timestamp leaves the air-quality one unchanged. -/
theorem ut_atm_air (h : SensorHealth) (now : ℚ) :
    (h.update_sensor_time SensorName.atmospheric now).last_reading_time.air_quality
      = h.last_reading_time.air_quality := rfl

/-- Updating the temperature timestamp leaves the air-quality one unchanged. -/
theorem ut_tmp_air (h : SensorHealth) (now : ℚ) :
    (h.update_sensor_time SensorName.temp_sensor now).last_reading_time.air_quality
      = h.last_reading_time.air_quality := rfl

/-- Updating the air-quality timestamp sets it to `now`. -/
theorem ut_air_air (h : SensorHealth) (now : ℚ) :
    (h.update_sensor_time SensorName.air_quality now).last_reading_time.air_quality
      = now := rfl

/-- The sensor blocks of `read_sensors` never write `last_readings`; only the
status-gated epilogue (lines 475-477) does. -/
theorem core_lkg (p : Ports) (h : SensorHealth) (now : ℚ) :
    (read_sensors_core p h now).1.last_readings = h.last_readings := by
  unfold read_sensors_core
  rcases p with ⟨atm, tmp, aqset, aqop, aqaqi, aqtvoc, aqeco2⟩
  cases atm with
  | error u =>
    dsimp only
    simp only [increment_error_lkg]
    cases hl : h.last_readings.atmospheric with
    | none => simp only [increment_error_lkg]
    | some v =>
      try dsimp only
      repeat' split
      all_goals simp only [update_time_lkg, reset_error_lkg, increment_error_lkg]
  | ok v =>
    obtain ⟨t, pr, hu⟩ := v
    try dsimp only
    repeat' split
    all_goals simp only [update_time_lkg, reset_error_lkg, increment_error_lkg]

/-- The epilogue of `read_sensors` never writes `last_reading_time`. -/
theorem wrapper_times (p : Ports) (h : SensorHealth) (hist : List Reading) (now : ℚ) :
    (read_sensors p h hist now).health.last_reading_time
      = (read_sensors_core p h now).1.last_reading_time := by
  unfold read_sensors
  rcases hcore : read_sensors_core p h now with ⟨h', res⟩
  cases res with
  | error e => rfl
  | ok val =>
    obtain ⟨r, atmV, tV, airV⟩ := val
    dsimp only
    split <;> rfl

/-- When `read_sensors` raises, neither the rolling history nor the
last-known-good cache has been touched. -/
theorem wrapper_lkg_of_err (p : Ports) (h : SensorHealth) (hist : List Reading)
    (now : ℚ) :
    ∀ e, (read_sensors p h hist now).result = Except.error e →
      (read_sensors p h hist now).history = hist ∧
      (read_sensors p h hist now).health.last_readings = h.last_readings := by
  intro e
  unfold read_sensors
  have hl := core_lkg p h now
  rcases hcore : read_sensors_core p h now with ⟨h', res⟩
  rw [hcore] at hl
  cases res with
  | error e2 => intro _; exact ⟨rfl, hl⟩
  | ok val =>
    obtain ⟨r, atmV, tV, airV⟩ := val
    dsimp only
    split <;> simp

/-- Chaining validated range checks over a list of booleans. -/
theorem seqChecks_oks (bs : List Bool) :
    seqChecks (bs.map Except.ok) = Except.ok (bs.all (fun b => b)) := by
  induction bs with
  | nil => rfl
  | cons b bs ih => cases b <;> simp [seqChecks, ih]

/-- Range check over a float-valued field. -/
theorem rangeChk_float (d : PyDict) (k : String) (q : ℚ) (lo hi : ℤ)
    (h : pyLookup d k = Except.ok (PyVal.floatV q)) :
    rangeChk d k lo hi
      = Except.ok (decide ((lo : ℚ) ≤ q) && decide (q ≤ (hi : ℚ))) := by
  rcases hle : decide ((lo : ℚ) ≤ q) with _ | _ <;>
    simp [rangeChk, h, pyLe, PyVal.toNum, hle]

/-- Range check over an int-valued field. -/
theorem rangeChk_int (d : PyDict) (k : String) (z : ℤ) (lo hi : ℤ)
    (h : pyLookup d k = Except.ok (PyVal.intV z)) :
    rangeChk d k lo hi = Except.ok (decide (lo ≤ z) && decide (z ≤ hi)) := by
  rcases hle : decide (lo ≤ z) with _ | _ <;>
    simp [rangeChk, h, pyLe, PyVal.toNum, hle]

/-- Computation of `validate_data_point` on a well-formed reading dict: the
gate passes exactly when the status is "operating ok" and each checked field
lies in its configured range. -/
theorem validate_toDict (r : Reading) :
    validate_data_point (Reading.toDict r) = true ↔
      (r.sensor_status = "operating ok" ∧
       -10 ≤ r.tempC ∧ r.tempC ≤ 50 ∧
       0 ≤ r.tvoc ∧ r.tvoc ≤ 65000 ∧
       400 ≤ r.eco2 ∧ r.eco2 ≤ 65000 ∧
       1 ≤ r.aqi ∧ r.aqi ≤ 5 ∧
       0 ≤ r.humRH ∧ r.humRH ≤ 100 ∧
       900 ≤ r.pres_hPa ∧ r.pres_hPa ≤ 1100) := by
  have h1 : pyLookup (Reading.toDict r) "tempC" = Except.ok (PyVal.floatV r.tempC) := rfl
  have h2 : pyLookup (Reading.toDict r) "tvoc" = Except.ok (PyVal.intV r.tvoc) := rfl
  have h3 : pyLookup (Reading.toDict r) "eco2" = Except.ok (PyVal.intV r.eco2) := rfl
  have h4 : pyLookup (Reading.toDict r) "aqi" = Except.ok (PyVal.intV r.aqi) := rfl
  have h5 : pyLookup (Reading.toDict r) "humRH" = Except.ok (PyVal.floatV r.humRH) := rfl
  have h6 : pyLookup (Reading.toDict r) "pres_hPa"
      = Except.ok (PyVal.floatV r.pres_hPa) := rfl
  have h7 : pyLookup (Reading.toDict r) "sensor_status"
      = Except.ok (PyVal.strV r.sensor_status) := rfl
  unfold validate_data_point vdp_impl
  rw [h7]
  simp only [pyNe, pyEqv, rangeChk_float _ _ _ _ _ h1, rangeChk_int _ _ _ _ _ h2,
    rangeChk_int _ _ _ _ _ h3, rangeChk_int _ _ _ _ _ h4, rangeChk_float _ _ _ _ _ h5,
    rangeChk_float _ _ _ _ _ h6]
  by_cases hs : r.sensor_status = "operating ok" <;> simp only [hs, decide_True,
    decide_False, Bool.not_true, Bool.not_false, if_true, if_false, Bool.false_eq_true,
    not_false_iff]
  · have hmap :
        seqChecks
          [(Except.ok (decide (((-10 : ℤ) : ℚ) ≤ r.tempC) &&
              decide (r.tempC ≤ ((50 : ℤ) : ℚ))) : Except PyErr Bool),
           Except.ok (decide ((0 : ℤ) ≤ r.tvoc) && decide (r.tvoc ≤ (65000 : ℤ))),
           Except.ok (decide ((400 : ℤ) ≤ r.eco2) && decide (r.eco2 ≤ (65000 : ℤ))),
           Except.ok (decide ((1 : ℤ) ≤ r.aqi) && decide (r.aqi ≤ (5 : ℤ))),
           Except.ok (decide (((0 : ℤ) : ℚ) ≤ r.humRH) &&
             decide (r.humRH ≤ ((100 : ℤ) : ℚ))),
           Except.ok (decide (((900 : ℤ) : ℚ) ≤ r.pres_hPa) &&
             decide (r.pres_hPa ≤ ((1100 : ℤ) : ℚ)))] =
        seqChecks (List.map Except.ok
          [decide (((-10 : ℤ) : ℚ) ≤ r.tempC) && decide (r.tempC ≤ ((50 : ℤ) : ℚ)),
           decide ((0 : ℤ) ≤ r.tvoc) && decide (r.tvoc ≤ (65000 : ℤ)),
           decide ((400 : ℤ) ≤ r.eco2) && decide (r.eco2 ≤ (65000 : ℤ)),
           decide ((1 : ℤ) ≤ r.aqi) && decide (r.aqi ≤ (5 : ℤ)),
           decide (((0 : ℤ) : ℚ) ≤ r.humRH) && decide (r.humRH ≤ ((100 : ℤ) : ℚ)),
           decide (((900 : ℤ) : ℚ) ≤ r.pres_hPa) &&
             decide (r.pres_hPa ≤ ((1100 : ℤ) : ℚ))]) := rfl
    rw [hmap, seqChecks_oks]
    push_cast
    simp [and_assoc]
  · simp [hs]

/-- A deque append always leaves the new element at the right end. -/
theorem dequeAppend_getLast (cap : ℕ) (hcap : 1 ≤ cap) {α : Type} (q : List α)
    (d : α) : (dequeAppend cap q d).getLast? = some d := by
  unfold dequeAppend
  dsimp only
  split
  · rename_i hlt
    rw [List.length_append] at hlt
    have hk : q.length + 1 - cap ≤ q.length := by simp at hlt ⊢; omega
    rw [List.length_append]
    simp only [List.length_singleton]
    rw [List.drop_append_of_le_length hk]
    simp
  · simp

/-- A deque append never grows past the capacity. -/
theorem dequeAppend_length_le (cap : ℕ) {α : Type} (q : List α) (d : α)
    (h : q.length ≤ cap) : (dequeAppend cap q d).length ≤ cap := by
  unfold dequeAppend
  dsimp only
  split <;> rename_i hlt <;> simp_all <;> omega

/-- Appending to a full deque evicts exactly the oldest element. -/
theorem dequeAppend_full (cap : ℕ) (hcap : 1 ≤ cap) {α : Type} (q : List α)
    (d : α) (h : q.length = cap) : dequeAppend cap q d = q.tail ++ [d] := by
  cases q with
  | nil => simp at h; omega
  | cons a as =>
    unfold dequeAppend
    dsimp only
    rw [if_pos (by simp at h ⊢; omega)]
    simp only [List.cons_append, List.length_cons, List.length_append,
      List.length_singleton, List.tail_cons]
    rw [show as.length + ([].length + 1) + 1 - cap = 1 from by simp at h; simp; omega]
    simp

/-- A deque append keeps exactly the most recent `cap` elements. -/
theorem dequeAppend_eq_drop (cap : ℕ) {α : Type} (q : List α) (d : α)
    (h : q.length ≤ cap) :
    dequeAppend cap q d = (q ++ [d]).drop (q.length + 1 - cap) := by
  unfold dequeAppend
  dsimp only
  split
  · rename_i hlt
    simp_all
  · rename_i hlt
    simp_all

/-- A flush against a failing sink changes nothing. -/
theorem flush_fail (now : ℚ) (st : MgrState) :
    flush_cache (fun _ => false) now st = st := by
  unfold flush_cache
  split
  · rfl
  · split <;> rfl

/-- The cache after any flush is either unchanged or empty. -/
theorem flush_cache_cases (sink : List Point → Bool) (now : ℚ) (st : MgrState) :
    (flush_cache sink now st).data_cache = st.data_cache ∨
      (flush_cache sink now st).data_cache = [] := by
  unfold flush_cache
  split
  · left; rfl
  · split
    · left; rfl
    · split
      · right; rfl
      · left; rfl

/-- One admitted write against a failing sink is exactly a deque append. -/
theorem write_fail_sink (now : ℚ) (st : MgrState) (d : PyDict)
    (hv : validate_data_point d = true) :
    write_to_influx (fun _ => false) now st d =
      ⟨dequeAppend CACHE_MAX_SIZE st.data_cache d, st.last_influx_send⟩ := by
  unfold write_to_influx
  rw [if_pos hv]
  dsimp only
  split
  · exact flush_fail _ _
  · rfl

set_option maxRecDepth 4000 in
/-- Folding admitted writes over a permanently failing sink keeps exactly the
most recent `CACHE_MAX_SIZE` readings and never records a send. -/
theorem foldl_write_fail (now : ℚ) (ds : List PyDict) :
    ∀ st : MgrState, (∀ d ∈ ds, validate_data_point d = true) →
    st.data_cache.length ≤ CACHE_MAX_SIZE →
    List.foldl (write_to_influx (fun _ => false) now) st ds =
      ⟨(st.data_cache ++ ds).drop (st.data_cache.length + ds.length - CACHE_MAX_SIZE),
       st.last_influx_send⟩ := by
  induction ds with
  | nil =>
    intro st _ hlen
    simp
    rw [show st.data_cache.length - CACHE_MAX_SIZE = 0 from by omega]
    simp
  | cons d ds ih =>
    intro st hv hlen
    rw [List.foldl_cons, write_fail_sink now st d (hv d (by simp))]
    rw [ih _ (fun x hx => hv x (by simp [hx])) (dequeAppend_length_le _ _ _ hlen)]
    have hcap : st.data_cache.length + 1 - CACHE_MAX_SIZE
        ≤ (st.data_cache ++ [d]).length := by
      simp
    refine congrArg (fun l => MgrState.mk l st.last_influx_send) ?_
    rw [dequeAppend_eq_drop _ _ _ hlen]
    rw [← List.drop_append_of_le_length hcap]
    rw [List.drop_drop]
    have hl : (st.data_cache ++ [d]) ++ ds = st.data_cache ++ d :: ds := by simp
    rw [hl]
    dsimp only
    have hidx :
        st.data_cache.length + 1 - CACHE_MAX_SIZE +
            (((st.data_cache ++ [d]).drop
                (st.data_cache.length + 1 - CACHE_MAX_SIZE)).length
              + ds.length - CACHE_MAX_SIZE) =
          st.data_cache.length + (d :: ds).length - CACHE_MAX_SIZE := by
      simp
      omega
    rw [hidx]

/-- A single tick never pushes the cache length past the capacity. -/
theorem write_step_bound (sink : List Point → Bool) (now : ℚ) (st : MgrState)
    (d : PyDict) (h : st.data_cache.length ≤ CACHE_MAX_SIZE) :
    (write_to_influx sink now st d).data_cache.length ≤ CACHE_MAX_SIZE := by
  unfold write_to_influx
  split
  · dsimp only
    split
    · rcases flush_cache_cases sink now
          ⟨dequeAppend CACHE_MAX_SIZE st.data_cache d, st.last_influx_send⟩ with hc | hc <;>
        rw [hc]
      · exact dequeAppend_length_le _ _ _ h
      · simp
    · exact dequeAppend_length_le _ _ _ h
  · exact h

/-- Validated point construction succeeds on every dict of the batch. -/
theorem points_build_all_ok (l : List PyDict)
    (hp : ∀ d ∈ l, ∃ pt, toPoint d = Except.ok pt) :
    ∃ pts, points_build l = Except.ok pts := by
  induction l with
  | nil => exact ⟨[], rfl⟩
  | cons d ds ih =>
    obtain ⟨pt, hpt⟩ := hp d (by simp)
    obtain ⟨pts, hpts⟩ := ih (fun x hx => hp x (by simp [hx]))
    exact ⟨pt :: pts, by simp [points_build, hpt, hpts]⟩

/-- A sequence of checks that came out all-clear contains no failure. -/
theorem seqChecks_all_true :
    ∀ cs : List (Except PyErr Bool), seqChecks cs = Except.ok true →
      ∀ c ∈ cs, c = Except.ok true := by
  intro cs
  induction cs with
  | nil => intro _; simp
  | cons c cs ih =>
    intro h x hx
    rcases c with e | b
    · simp [seqChecks] at h
    · cases b
      · simp [seqChecks] at h
      · rcases List.mem_cons.mp hx with hx | hx
        · subst hx; rfl
        · exact ih (by simpa [seqChecks] using h) x hx

/-- A passed range check implies the key was present with a numeric value. -/
theorem rangeChk_ok_num (d : PyDict) (k : String) (lo hi : ℤ)
    (h : rangeChk d k lo hi = Except.ok true) :
    ∃ v, pyLookup d k = Except.ok v ∧ ∃ q, v.toNum = some q := by
  unfold rangeChk at h
  rcases hlk : pyLookup d k with e | v
  · rw [hlk] at h; cases h
  · rw [hlk] at h
    rcases v with z | q | sv | _
    · exact ⟨_, rfl, _, rfl⟩
    · exact ⟨_, rfl, _, rfl⟩
    · exfalso; simp [pyLe, PyVal.toNum] at h
    · exfalso; simp [pyLe, PyVal.toNum] at h

/-! ## Concrete inputs used by the claim theorems -/

/-- Every sensor-port call raises during the poll. -/
def portsAllFail : Ports :=
  ⟨Except.error (), Except.error (), false, Except.error (), Except.error (),
   Except.error (), Except.error ()⟩

/-- The atmospheric read raises; temperature and air-quality reads succeed,
in range, with status "operating ok". -/
def portsC3 : Ports :=
  ⟨Except.error (), Except.ok 22, true, Except.ok "operating ok",
   Except.ok 2, Except.ok 100, Except.ok ⟨600, "Normal"⟩⟩

/-- Health state with a last-known-good atmospheric tuple
(21 °C, 101000 Pa, 55 %RH), air-quality error count 2, atmospheric error
count 1. -/
def healthC3 : SensorHealth :=
  ⟨⟨0, 2, 1⟩, ⟨none, none, some (21, 101000, 55)⟩, ⟨0, 0, 0⟩⟩

/-- All port reads succeed but the atmospheric temperature (100 °C) is out
of the configured range. -/
def portsC8 : Ports :=
  ⟨Except.ok (100, 101325, 50), Except.ok 22, true, Except.ok "operating ok",
   Except.ok 2, Except.ok 100, Except.ok ⟨600, "Normal"⟩⟩

/-- All port reads succeed in range with status "operating ok". -/
def portsOK : Ports :=
  ⟨Except.ok (21, 101325, 50), Except.ok 22, true, Except.ok "operating ok",
   Except.ok 2, Except.ok 100, Except.ok ⟨600, "Normal"⟩⟩

/-- A fully in-range reading with status "operating ok", distinguished by
its timestamp. -/
def mkC5 (i : ℕ) : Reading :=
  ⟨20, 1000, 50, 1, "Excellent", 10, 500, "Normal", "operating ok", i⟩

/-- An otherwise in-range reading whose operational status is "error", so
delivery admission rejects it. -/
def badC9 : Reading :=
  ⟨20, 1000, 50, 1, "Excellent", 10, 500, "Normal", "error", 0⟩

/-- Manager state with 60 cached readings and no successful send yet. -/
def stC9 : MgrState := ⟨List.replicate 60 (Reading.toDict (mkC5 0)), 0⟩

/-- A reading that trips the top eCO2 tier and the lowest TVOC tier, all
other metrics quiet. -/
def rC4 : Reading := ⟨22, 1010, 45, 2, "Good", 600, 2500, "Normal", "operating ok", 0⟩

/-- Which sensors record a failure on each port-call pattern of the
air-quality block: the `update_sensor_time('air_quality')` call of source
line 452 runs exactly when the attribute writes, the status read (with value
"operating ok") and the three value reads all succeed. -/
def aq_read_completed (p : Ports) : Bool :=
  p.aq_set_ok &&
  (match p.aq_operation with
   | Except.ok s => decide (s = "operating ok")
   | Except.error _ => false) &&
  (match p.aq_aqi with | Except.ok _ => true | Except.error _ => false) &&
  (match p.aq_tvoc with | Except.ok _ => true | Except.error _ => false) &&
  (match p.aq_eco2 with | Except.ok _ => true | Except.error _ => false)

/-- The keys `validate_data_point` subscripts. -/
def vdp_required_keys : List String :=
  ["sensor_status", "tempC", "tvoc", "eco2", "aqi", "humRH", "pres_hPa"]

/-- The keys `validate_data_point` compares against numeric bounds. -/
def vdp_numeric_keys : List String :=
  ["tempC", "tvoc", "eco2", "aqi", "humRH", "pres_hPa"]

/-- A malformed reading dict: a required field missing, or a field that is
compared numerically holding a non-numeric (non-comparable) value. -/
def malformed (d : PyDict) : Prop :=
  (∃ k ∈ vdp_required_keys, pyLookup d k = Except.error PyErr.keyError) ∨
  (∃ k ∈ vdp_numeric_keys, ∃ v, pyLookup d k = Except.ok v ∧ v.toNum = none)

/-! ## Claim theorems -/

/-- C1: the claim says `read_sensors` never raises and always returns a
fully-populated Reading, defaults substituted on failure.  The code violates
this: on the very first poll (`SensorHealth.__init__` leaves
`last_readings['atmospheric'] = None`) with every sensor call failing, the
fallback `last_readings.get('atmospheric', (20, 101325, 50))` returns the
stored `None` — the key is always present, so the default tuple is dead —
and tuple-unpacking `None` raises `TypeError` out of `read_sensors`.  The
error counter has already been incremented when the raise happens. -/
theorem C1_read_sensors_first_failure_raises :
    (read_sensors portsAllFail SensorHealth.init [] 0).result
        = Except.error PyErr.typeError ∧
    SensorHealth.init.last_readings.atmospheric = none ∧
    (read_sensors portsAllFail SensorHealth.init [] 0).health.error_counts.atmospheric
        = 1 :=
  ⟨rfl, rfl, rfl⟩

/-- C3: with a last-known-good atmospheric tuple present, an atmospheric
read error substitutes it (pressure 101000 Pa shows up as 1010 hPa, humidity
55 %RH), the air-quality counter resets to 0 and the atmospheric counter
goes from 1 to 2 — but with no last-known-good (first-ever failure) the same
scenario raises `TypeError` instead of substituting the documented defaults
20 °C / 101325 Pa / 50 %RH, because `dict.get` returns the stored `None`. -/
theorem C3_atmospheric_fallback :
    (read_sensors portsC3 SensorHealth.init [] 5).result
        = Except.error PyErr.typeError ∧
    (read_sensors portsC3 healthC3 [] 5).result
        = Except.ok ⟨22, 101000 / 100, 55, 2, "Good", 100, 600, "Normal",
            "operating ok", 5⟩ ∧
    (101000 / 100 : ℚ) = 1010 ∧
    (read_sensors portsC3 healthC3 [] 5).health.error_counts.air_quality = 0 ∧
    (read_sensors portsC3 healthC3 [] 5).health.error_counts.atmospheric = 2 :=
  ⟨rfl, rfl, by norm_num, rfl, rfl⟩

/-- C2: `flush_cache` is transactional — an empty cache returns at once, a
point-building error or sink failure leaves the cache and the last-send
timestamp untouched, and exactly a successful sink write empties the cache
and records the flush time. -/
theorem C2_flush_cache_transactional (sink : List Point → Bool) (now : ℚ)
    (st : MgrState) :
    (st.data_cache = [] → flush_cache sink now st = st) ∧
    (∀ e, points_build st.data_cache = Except.error e →
      flush_cache sink now st = st) ∧
    (∀ pts, points_build st.data_cache = Except.ok pts → sink pts = false →
      flush_cache sink now st = st) ∧
    (st.data_cache ≠ [] → ∀ pts, points_build st.data_cache = Except.ok pts →
      sink pts = true → flush_cache sink now st = ⟨[], now⟩) ∧
    (flush_cache sink now st ≠ st →
      st.data_cache ≠ [] ∧ flush_cache sink now st = ⟨[], now⟩ ∧
      ∃ pts, points_build st.data_cache = Except.ok pts ∧ sink pts = true) := by
  refine ⟨?_, ?_, ?_, ?_, ?_⟩
  · intro h; simp [flush_cache, h]
  · intro e he; simp [flush_cache, he]
  · intro pts hp hs; simp [flush_cache, hp, hs]
  · intro hne pts hp hs; simp [flush_cache, hne, hp, hs]
  · intro hch
    by_cases hnil : st.data_cache = []
    · exact absurd (by simp [flush_cache, hnil]) hch
    · rcases hb : points_build st.data_cache with e | pts
      · exact absurd (by simp [flush_cache, hnil, hb]) hch
      · rcases hs : sink pts with _ | _
        · exact absurd (by simp [flush_cache, hnil, hb, hs]) hch
        · exact ⟨hnil, by simp [flush_cache, hnil, hb, hs], pts, by simp [hb], hs⟩

/-- Witness for C2 at a one-element cache: a failing sink leaves the state
unchanged, a succeeding sink empties the cache and records time 9. -/
theorem C2_flush_cache_transactional_witness :
    flush_cache (fun _ => false) 9 ⟨[Reading.toDict (mkC5 0)], 3⟩
        = ⟨[Reading.toDict (mkC5 0)], 3⟩ ∧
    flush_cache (fun _ => true) 9 ⟨[Reading.toDict (mkC5 0)], 3⟩ = ⟨[], 9⟩ :=
  ⟨(C2_flush_cache_transactional (fun _ => false) 9
      ⟨[Reading.toDict (mkC5 0)], 3⟩).2.2.1
      [⟨PyVal.floatV 20, PyVal.floatV 50, PyVal.floatV 1000, PyVal.intV 1,
        PyVal.intV 10, PyVal.intV 500, PyVal.strV "Excellent", PyVal.strV "Normal",
        PyVal.strV "operating ok"⟩] rfl rfl,
   (C2_flush_cache_transactional (fun _ => true) 9
      ⟨[Reading.toDict (mkC5 0)], 3⟩).2.2.2.1 (by simp)
      [⟨PyVal.floatV 20, PyVal.floatV 50, PyVal.floatV 1000, PyVal.intV 1,
        PyVal.intV 10, PyVal.intV 500, PyVal.strV "Excellent", PyVal.strV "Normal",
        PyVal.strV "operating ok"⟩] rfl rfl⟩

/-- C4 counterexample: the claim says the two returned recommendations are
chosen by insertion order after deduplication.  The code returns
`list(set(recommendations))[:2]`, whose order is the hash-dependent set
iteration order.  On a reading yielding exactly ["Ventilate now!",
"Check VOC sources"], the reversed order is an admissible set iteration
order (a permutation of the deduplicated list), and under it the function
returns the two recommendations in non-insertion order. -/
theorem C4_set_order_counterexample :
    envRecs rC4 = ["Ventilate now!", "Check VOC sources"] ∧
    (List.reverse (envRecs rC4)).Perm (envRecs rC4).dedup ∧
    (get_environment_score List.reverse rC4).2
        = ["Check VOC sources", "Ventilate now!"] ∧
    (get_environment_score List.reverse rC4).2 ≠ (envRecs rC4).take 2 :=
  ⟨by decide, by decide, by decide, by decide⟩

/-- C4 (amended): for every admissible set iteration order — any function
producing a permutation of the deduplicated recommendations — the score
keeps the AQI rating as base score and returns at most 2 recommendations,
without duplicates, all drawn from the computed recommendation list; which
2 and in which order is up to the set order, not insertion order. -/
theorem C4_score_bounded_nodup (setOrder : List String → List String)
    (hperm : ∀ l, (setOrder l).Perm l.dedup) (r : Reading) :
    (get_environment_score setOrder r).1 = r.aqi_rating ∧
    (get_environment_score setOrder r).2.length ≤ 2 ∧
    (get_environment_score setOrder r).2.Nodup ∧
    ∀ s ∈ (get_environment_score setOrder r).2, s ∈ envRecs r := by
  unfold get_environment_score
  refine ⟨rfl, ?_, ?_, ?_⟩
  · simpa using List.length_take_le 2 (setOrder (envRecs r))
  · exact ((List.take_sublist 2 _).nodup
      (((hperm (envRecs r)).nodup_iff).mpr (List.nodup_dedup _)))
  · intro s hs
    have h1 : s ∈ setOrder (envRecs r) := List.mem_of_mem_take hs
    have h2 : s ∈ (envRecs r).dedup := ((hperm (envRecs r)).mem_iff).mp h1
    exact List.mem_dedup.mp h2

/-- Witness for C4 at the deduplication order itself and the concrete
reading `rC4`. -/
theorem C4_score_bounded_nodup_witness :
    (get_environment_score (fun l => List.dedup l) rC4).2.length ≤ 2 ∧
    (get_environment_score (fun l => List.dedup l) rC4).2.Nodup :=
  ⟨(C4_score_bounded_nodup (fun l => List.dedup l)
      (fun _ => List.Perm.refl _) rC4).2.1,
   (C4_score_bounded_nodup (fun l => List.dedup l)
      (fun _ => List.Perm.refl _) rC4).2.2.1⟩

/-- Scenario instance for C5: 1500 admitted readings through a permanently
failing sink, from an empty cache, leave exactly readings 501-1500 cached
and the last-send timestamp still 0 (no flush ever succeeded). -/
theorem C5_scenario :
    List.foldl (write_to_influx (fun _ => false) 100) ⟨[], 0⟩
        ((List.range 1500).map (fun i => Reading.toDict (mkC5 i))) =
      ⟨((List.range 1500).drop 500).map (fun i => Reading.toDict (mkC5 i)), 0⟩ := by
  have hval : ∀ d ∈ (List.range 1500).map (fun i => Reading.toDict (mkC5 i)),
      validate_data_point d = true := by
    intro d hd
    simp only [List.mem_map] at hd
    obtain ⟨i, _, rfl⟩ := hd
    rw [validate_toDict]
    refine ⟨rfl, ?_⟩
    norm_num [mkC5]
  rw [foldl_write_fail _ _ _ hval (by simp [CACHE_MAX_SIZE])]
  simp [CACHE_MAX_SIZE]

/-- C5: the delivery cache never exceeds `CACHE_MAX_SIZE` across a tick;
appending to a full deque evicts exactly the oldest entry; and the spec's
scenario holds: with capacity 1000 and a permanently failing sink, 1500
successive admitted readings leave exactly readings 501-1500 in the cache
with no successful flush recorded (`last_influx_send` still 0). -/
theorem C5_cache_fifo_bound :
    (∀ (sink : List Point → Bool) (now : ℚ) (st : MgrState) (d : PyDict),
      st.data_cache.length ≤ CACHE_MAX_SIZE →
      (write_to_influx sink now st d).data_cache.length ≤ CACHE_MAX_SIZE) ∧
    (∀ (q : List PyDict) (d : PyDict), q.length = CACHE_MAX_SIZE →
      dequeAppend CACHE_MAX_SIZE q d = q.tail ++ [d]) ∧
    List.foldl (write_to_influx (fun _ => false) 100) ⟨[], 0⟩
        ((List.range 1500).map (fun i => Reading.toDict (mkC5 i))) =
      ⟨((List.range 1500).drop 500).map (fun i => Reading.toDict (mkC5 i)), 0⟩ :=
  ⟨write_step_bound,
   fun q d h => dequeAppend_full _ (by norm_num [CACHE_MAX_SIZE]) q d h,
   C5_scenario⟩

/-- Witness for C5 at a singleton write and a concretely full deque. -/
theorem C5_cache_fifo_bound_witness :
    (write_to_influx (fun _ => false) 0 ⟨[], 0⟩
        (Reading.toDict (mkC5 0))).data_cache.length ≤ CACHE_MAX_SIZE ∧
    dequeAppend CACHE_MAX_SIZE (List.replicate 1000 (Reading.toDict (mkC5 0)))
        (Reading.toDict badC9)
      = (List.replicate 1000 (Reading.toDict (mkC5 0))).tail
          ++ [Reading.toDict badC9] :=
  ⟨C5_cache_fifo_bound.1 (fun _ => false) 0 ⟨[], 0⟩ (Reading.toDict (mkC5 0))
      (by simp),
   C5_cache_fifo_bound.2.1 (List.replicate 1000 (Reading.toDict (mkC5 0)))
      (Reading.toDict badC9) (by simp only [List.length_replicate, CACHE_MAX_SIZE])⟩

/-- C6: delivery admission.  A reading dict is accepted by
`validate_data_point` exactly when its operational status is "operating ok"
and temperature, TVOC, eCO2, AQI, humidity and pressure all lie in their
documented ranges; a rejected reading leaves the manager state untouched; an
accepted reading is appended to the deque (it becomes the newest entry, and
afterwards the cache is either that appended deque or empty following a
successful batch flush). -/
theorem C6_delivery_admission (r : Reading) (st : MgrState) (now : ℚ)
    (sink : List Point → Bool) :
    (validate_data_point (Reading.toDict r) = true ↔
      (r.sensor_status = "operating ok" ∧
       -10 ≤ r.tempC ∧ r.tempC ≤ 50 ∧
       0 ≤ r.tvoc ∧ r.tvoc ≤ 65000 ∧
       400 ≤ r.eco2 ∧ r.eco2 ≤ 65000 ∧
       1 ≤ r.aqi ∧ r.aqi ≤ 5 ∧
       0 ≤ r.humRH ∧ r.humRH ≤ 100 ∧
       900 ≤ r.pres_hPa ∧ r.pres_hPa ≤ 1100)) ∧
    (validate_data_point (Reading.toDict r) = false →
      write_to_influx sink now st (Reading.toDict r) = st) ∧
    (validate_data_point (Reading.toDict r) = true →
      (dequeAppend CACHE_MAX_SIZE st.data_cache (Reading.toDict r)).getLast?
          = some (Reading.toDict r) ∧
      ((write_to_influx sink now st (Reading.toDict r)).data_cache =
          dequeAppend CACHE_MAX_SIZE st.data_cache (Reading.toDict r) ∨
        (write_to_influx sink now st (Reading.toDict r)).data_cache = [])) := by
  refine ⟨validate_toDict r, ?_, ?_⟩
  · intro hv; simp [write_to_influx, hv]
  · intro hv
    refine ⟨dequeAppend_getLast CACHE_MAX_SIZE (by norm_num [CACHE_MAX_SIZE]) _ _, ?_⟩
    simp only [write_to_influx, hv, if_true]
    split
    · unfold flush_cache
      split
      · left; rfl
      · split
        · left; rfl
        · split
          · right; rfl
          · left; rfl
    · left; rfl

/-- Witness for C6: the in-range reading `mkC5 0` is admitted and appended
to an empty cache; the out-of-status reading `badC9` is rejected and the
state is unchanged. -/
theorem C6_delivery_admission_witness :
    (dequeAppend CACHE_MAX_SIZE ([] : List PyDict)
        (Reading.toDict (mkC5 0))).getLast? = some (Reading.toDict (mkC5 0)) ∧
    write_to_influx (fun _ => false) 0 ⟨[], 0⟩ (Reading.toDict badC9) = ⟨[], 0⟩ :=
  ⟨((C6_delivery_admission (mkC5 0) ⟨[], 0⟩ 0 (fun _ => false)).2.2 rfl).1,
   (C6_delivery_admission badC9 ⟨[], 0⟩ 0 (fun _ => false)).2.1 rfl⟩

/-- C7: the rolling 128-entry history and the last-known-good caches are
refreshed exactly when the assembled reading's air-quality status is
"operating ok"; for any other status both are left unchanged while the
Reading is still returned; and when the assembler raises (see C1) neither
is touched either. -/
theorem C7_history_gate (p : Ports) (h : SensorHealth) (hist : List Reading)
    (now : ℚ) :
    (∀ e, (read_sensors p h hist now).result = Except.error e →
      (read_sensors p h hist now).history = hist ∧
      (read_sensors p h hist now).health.last_readings = h.last_readings) ∧
    (∀ r, (read_sensors p h hist now).result = Except.ok r →
      (r.sensor_status ≠ "operating ok" →
        (read_sensors p h hist now).history = hist ∧
        (read_sensors p h hist now).health.last_readings = h.last_readings) ∧
      (r.sensor_status = "operating ok" →
        (read_sensors p h hist now).history = dequeAppend 128 hist r ∧
        (read_sensors p h hist now).health.last_readings.temp_sensor.isSome ∧
        (read_sensors p h hist now).health.last_readings.air_quality.isSome ∧
        (read_sensors p h hist now).health.last_readings.atmospheric.isSome)) := by
  refine ⟨wrapper_lkg_of_err p h hist now, ?_⟩
  intro r
  have hl := core_lkg p h now
  unfold read_sensors
  rcases hcore : read_sensors_core p h now with ⟨h', res⟩
  rw [hcore] at hl
  cases res with
  | error e => intro hr; cases hr
  | ok val =>
    obtain ⟨r', atmV, tV, airV⟩ := val
    dsimp only
    by_cases hs : r'.sensor_status = "operating ok"
    · rw [if_pos hs]
      intro hr
      have : r' = r := by cases hr; rfl
      subst this
      exact ⟨fun hne => absurd hs hne, fun _ => ⟨rfl, rfl, rfl, rfl⟩⟩
    · rw [if_neg hs]
      intro hr
      have : r' = r := by cases hr; rfl
      subst this
      exact ⟨fun _ => ⟨rfl, hl⟩, fun hok => absurd hok hs⟩

/-- Witness for C7 at a fully successful poll: the reading (status
"operating ok") is appended to the history and all three last-known-good
entries are populated. -/
theorem C7_history_gate_witness :
    (read_sensors portsOK SensorHealth.init [] 7).history =
      dequeAppend 128 []
        ⟨22, 101325 / 100, 50, 2, "Good", 100, 600, "Normal", "operating ok", 7⟩ ∧
    (read_sensors portsOK SensorHealth.init [] 7).health.last_readings.temp_sensor.isSome ∧
    (read_sensors portsOK SensorHealth.init [] 7).health.last_readings.air_quality.isSome ∧
    (read_sensors portsOK SensorHealth.init [] 7).health.last_readings.atmospheric.isSome :=
  (C7_history_gate portsOK SensorHealth.init [] 7).2
    ⟨22, 101325 / 100, 50, 2, "Good", 100, 600, "Normal", "operating ok", 7⟩ rfl
    |>.2 rfl

/-- C8 counterexample: the claim says a poll that records a failure for a
sensor leaves its last-success timestamp unchanged, also when the failure is
a received value failing range validation.  In the code
`update_sensor_time` runs whenever the port read itself succeeds, before
(or regardless of) validation: an atmospheric reading of 100 °C (out of the
-10..50 range) increments the error counter AND moves the timestamp from 0
to the current time 7. -/
theorem C8_timestamp_counterexample :
    (read_sensors portsC8 SensorHealth.init [] 7).health.error_counts.atmospheric
        = 1 ∧
    (read_sensors portsC8 SensorHealth.init [] 7).health.last_reading_time.atmospheric
        = 7 ∧
    SensorHealth.init.last_reading_time.atmospheric = 0 ∧ (7 : ℚ) ≠ 0 :=
  ⟨rfl, rfl, rfl, by norm_num⟩

set_option maxHeartbeats 2000000 in
/-- C8 (amended): a sensor's last-success timestamp is unchanged when its
port read raises, and is set to the current time whenever the port read
itself succeeds — even if the received values fail range validation and a
failure is recorded; for the air-quality sensor the update happens exactly
when the attribute writes, the status read (returning "operating ok") and
the three value reads all succeed.  (The atmospheric first-failure raise,
C1, is excluded by hypothesis.) -/
theorem C8_timestamp_update_rule (p : Ports) (h : SensorHealth)
    (hist : List Reading) (now : ℚ)
    (hno : ¬(p.atm = Except.error () ∧ h.last_readings.atmospheric = none)) :
    ((p.atm = Except.error () →
       (read_sensors p h hist now).health.last_reading_time.atmospheric =
         h.last_reading_time.atmospheric) ∧
     (∀ v, p.atm = Except.ok v →
       (read_sensors p h hist now).health.last_reading_time.atmospheric = now)) ∧
    ((p.tmp = Except.error () →
       (read_sensors p h hist now).health.last_reading_time.temp_sensor =
         h.last_reading_time.temp_sensor) ∧
     (∀ v, p.tmp = Except.ok v →
       (read_sensors p h hist now).health.last_reading_time.temp_sensor = now)) ∧
    ((aq_read_completed p = false →
       (read_sensors p h hist now).health.last_reading_time.air_quality =
         h.last_reading_time.air_quality) ∧
     (aq_read_completed p = true →
       (read_sensors p h hist now).health.last_reading_time.air_quality = now)) := by
  simp only [wrapper_times]
  rcases p with ⟨atm, tmp, aqset, aqop, aqaqi, aqtvoc, aqeco2⟩
  unfold read_sensors_core aq_read_completed
  cases atm with
  | error u =>
    simp only at hno
    dsimp only
    simp only [increment_error_lkg]
    cases hl : h.last_readings.atmospheric with
    | none => simp [hl] at hno
    | some v =>
      try dsimp only
      repeat' split
      all_goals
        simp_all [increment_error_times, reset_error_times, ut_atm_atm, ut_tmp_atm,
          ut_air_atm, ut_atm_tmp, ut_tmp_tmp, ut_air_tmp, ut_atm_air, ut_tmp_air,
          ut_air_air]
  | ok v =>
    obtain ⟨t, pr, hu⟩ := v
    try dsimp only
    repeat' split
    all_goals
      simp_all [increment_error_times, reset_error_times, ut_atm_atm, ut_tmp_atm,
        ut_air_atm, ut_atm_tmp, ut_tmp_tmp, ut_air_tmp, ut_atm_air, ut_tmp_air,
        ut_air_air]

/-- Witness for C8 at a fully successful read: all three timestamps move to
the poll time 7. -/
theorem C8_timestamp_update_rule_witness :
    (read_sensors portsOK SensorHealth.init [] 7).health.last_reading_time.atmospheric
        = 7 ∧
    (read_sensors portsOK SensorHealth.init [] 7).health.last_reading_time.temp_sensor
        = 7 ∧
    (read_sensors portsOK SensorHealth.init [] 7).health.last_reading_time.air_quality
        = 7 :=
  ⟨(C8_timestamp_update_rule portsOK SensorHealth.init [] 7
      (by simp [portsOK])).1.2 (21, 101325, 50) rfl,
   (C8_timestamp_update_rule portsOK SensorHealth.init [] 7
      (by simp [portsOK])).2.1.2 22 rfl,
   (C8_timestamp_update_rule portsOK SensorHealth.init [] 7
      (by simp [portsOK])).2.2.2 rfl⟩

/-- C9 counterexample: the claim says a tick that offers a reading attempts
a flush exactly when the send interval has elapsed and the cache holds a
full batch.  With 60 cached readings, last send at 0 and current time 100
both conditions hold, yet offering a rejected reading (status "error")
leaves the state untouched — no flush is attempted, although an attempted
flush against this succeeding sink would have emptied the cache. -/
theorem C9_flush_gating_counterexample :
    INFLUX_SEND_INTERVAL ≤ (100 : ℚ) - stC9.last_influx_send ∧
    INFLUX_BATCH_SIZE ≤ stC9.data_cache.length ∧
    stC9.data_cache ≠ [] ∧
    write_to_influx (fun _ => true) 100 stC9 (Reading.toDict badC9) = stC9 ∧
    flush_cache (fun _ => true) 100 stC9 = ⟨[], 100⟩ := by
  refine ⟨by norm_num [stC9, INFLUX_SEND_INTERVAL],
    by simp [stC9, INFLUX_BATCH_SIZE], by simp [stC9], ?_, ?_⟩
  · have hv : validate_data_point (Reading.toDict badC9) = false := rfl
    simp [write_to_influx, hv]
  · have hb : ∃ pts, points_build stC9.data_cache = Except.ok pts := by
      refine points_build_all_ok _ ?_
      intro d hd
      have hde : d = (mkC5 0).toDict := by simpa [stC9] using hd
      subst hde
      exact ⟨⟨PyVal.floatV 20, PyVal.floatV 50, PyVal.floatV 1000, PyVal.intV 1,
        PyVal.intV 10, PyVal.intV 500, PyVal.strV "Excellent", PyVal.strV "Normal",
        PyVal.strV "operating ok"⟩, rfl⟩
    obtain ⟨pts, hpts⟩ := hb
    simp [flush_cache, stC9, hpts]
    simp [stC9] at hpts
    simp [hpts]

/-- C9 (amended): the flush decision is evaluated only on ticks whose
offered reading is admitted; on those ticks a flush is attempted exactly
when the elapsed time since the last successful send is at least the send
interval AND the post-append cache size is at least the batch size; a
rejected reading never triggers a flush and leaves the state unchanged. -/
theorem C9_flush_condition (sink : List Point → Bool) (now : ℚ) (st : MgrState)
    (d : PyDict) :
    (write_to_influx_flushes now st d = true ↔
      (validate_data_point d = true ∧
       INFLUX_SEND_INTERVAL ≤ now - st.last_influx_send ∧
       INFLUX_BATCH_SIZE ≤ (dequeAppend CACHE_MAX_SIZE st.data_cache d).length)) ∧
    (validate_data_point d = false → write_to_influx sink now st d = st) ∧
    (write_to_influx_flushes now st d = true →
      write_to_influx sink now st d =
        flush_cache sink now
          ⟨dequeAppend CACHE_MAX_SIZE st.data_cache d, st.last_influx_send⟩) ∧
    (validate_data_point d = true → write_to_influx_flushes now st d = false →
      write_to_influx sink now st d =
        ⟨dequeAppend CACHE_MAX_SIZE st.data_cache d, st.last_influx_send⟩) := by
  refine ⟨?_, ?_, ?_, ?_⟩
  · simp [write_to_influx_flushes, and_assoc]
  · intro hv; simp [write_to_influx, hv]
  · intro hf
    simp only [write_to_influx_flushes, Bool.and_eq_true, decide_eq_true_iff] at hf
    simp [write_to_influx, hf.1.1, hf.1.2, hf.2]
  · intro hv hf
    simp only [write_to_influx_flushes, hv, Bool.true_and, Bool.and_eq_false_iff,
      decide_eq_false_iff_not, not_le] at hf
    unfold write_to_influx
    rw [if_pos hv, if_neg]
    rcases hf with hf | hf
    · exact fun hc => absurd hc.1 (not_le.mpr hf)
    · exact fun hc => absurd hc.2 (not_le.mpr hf)

/-- Witness for C9: a rejected reading leaves an empty-cache state
unchanged. -/
theorem C9_flush_condition_witness :
    write_to_influx (fun _ => false) 0 ⟨[], 0⟩ (Reading.toDict badC9) = ⟨[], 0⟩ :=
  (C9_flush_condition (fun _ => false) 0 ⟨[], 0⟩ (Reading.toDict badC9)).2.1 rfl

/-- C10: the delivery-admission check is total on arbitrary dicts: a
malformed reading (a required field missing, or a numerically compared
field holding a non-numeric value) makes `validate_data_point` return
`False` — the `except (KeyError, TypeError)` clause absorbs the error — and
`write_to_influx` drops the reading, leaving the state unchanged. -/
theorem C10_admission_total (d : PyDict) (hm : malformed d) :
    validate_data_point d = false ∧
    ∀ (sink : List Point → Bool) (now : ℚ) (st : MgrState),
      write_to_influx sink now st d = st := by
  have hv : validate_data_point d = false := by
    rcases hb : validate_data_point d with _ | _
    · rfl
    · exfalso
      have himpl : vdp_impl d = Except.ok true := by
        unfold validate_data_point at hb
        rcases hi : vdp_impl d with e | b
        · rw [hi] at hb; cases hb
        · rw [hi] at hb
          cases b
          · cases hb
          · rfl
      unfold vdp_impl at himpl
      rcases hs : pyLookup d "sensor_status" with e | sv
      · rw [hs] at himpl; cases himpl
      · rw [hs] at himpl
        dsimp only at himpl
        by_cases hne2 : pyNe sv (PyVal.strV "operating ok") = true
        · rw [if_pos hne2] at himpl; cases himpl
        · rw [if_neg hne2] at himpl
          have hall := seqChecks_all_true _ himpl
          have htempC := rangeChk_ok_num d "tempC" (-10) 50 (hall _ (by simp))
          have htvoc := rangeChk_ok_num d "tvoc" 0 65000 (hall _ (by simp))
          have heco2 := rangeChk_ok_num d "eco2" 400 65000 (hall _ (by simp))
          have haqi := rangeChk_ok_num d "aqi" 1 5 (hall _ (by simp))
          have hhum := rangeChk_ok_num d "humRH" 0 100 (hall _ (by simp))
          have hpres := rangeChk_ok_num d "pres_hPa" 900 1100 (hall _ (by simp))
          rcases hm with ⟨k, hk, hkerr⟩ | ⟨k, hk, v, hkv, hvn⟩
          · simp only [vdp_required_keys, List.mem_cons, List.not_mem_nil,
              or_false] at hk
            rcases hk with rfl | rfl | rfl | rfl | rfl | rfl | rfl
            · rw [hs] at hkerr; cases hkerr
            · obtain ⟨v, hv', _⟩ := htempC; rw [hv'] at hkerr; cases hkerr
            · obtain ⟨v, hv', _⟩ := htvoc; rw [hv'] at hkerr; cases hkerr
            · obtain ⟨v, hv', _⟩ := heco2; rw [hv'] at hkerr; cases hkerr
            · obtain ⟨v, hv', _⟩ := haqi; rw [hv'] at hkerr; cases hkerr
            · obtain ⟨v, hv', _⟩ := hhum; rw [hv'] at hkerr; cases hkerr
            · obtain ⟨v, hv', _⟩ := hpres; rw [hv'] at hkerr; cases hkerr
          · simp only [vdp_numeric_keys, List.mem_cons, List.not_mem_nil,
              or_false] at hk
            rcases hk with rfl | rfl | rfl | rfl | rfl | rfl
            · obtain ⟨v', hv', q, hq⟩ := htempC
              rw [hv'] at hkv; cases hkv; rw [hq] at hvn; cases hvn
            · obtain ⟨v', hv', q, hq⟩ := htvoc
              rw [hv'] at hkv; cases hkv; rw [hq] at hvn; cases hvn
            · obtain ⟨v', hv', q, hq⟩ := heco2
              rw [hv'] at hkv; cases hkv; rw [hq] at hvn; cases hvn
            · obtain ⟨v', hv', q, hq⟩ := haqi
              rw [hv'] at hkv; cases hkv; rw [hq] at hvn; cases hvn
            · obtain ⟨v', hv', q, hq⟩ := hhum
              rw [hv'] at hkv; cases hkv; rw [hq] at hvn; cases hvn
            · obtain ⟨v', hv', q, hq⟩ := hpres
              rw [hv'] at hkv; cases hkv; rw [hq] at hvn; cases hvn
  refine ⟨hv, ?_⟩
  intro sink now st
  simp [write_to_influx, hv]

/-- Witness for C10 at the empty dict, where every lookup raises
`KeyError`. -/
theorem C10_admission_total_witness :
    validate_data_point ([] : PyDict) = false ∧
    write_to_influx (fun _ => false) 0 ⟨[], 0⟩ ([] : PyDict) = ⟨[], 0⟩ :=
  ⟨(C10_admission_total []
      (Or.inl ⟨"sensor_status", by simp [vdp_required_keys], rfl⟩)).1,
   (C10_admission_total []
      (Or.inl ⟨"sensor_status", by simp [vdp_required_keys], rfl⟩)).2
      (fun _ => false) 0 ⟨[], 0⟩⟩
